/-
Verification of the montecarlo dice-simulation package (Die / Game / Analyzer).

The package (src/montecarlo/__init__.py) exports the classes of
src/montecarlo/montecarlo.py; those are the definitions embedded here.

Modelling conventions:
  * Outcome labels (faces) form a linearly ordered type `α` (NumPy arrays of
    strings or numbers; Python comparison is a linear order on each).
  * Weights are rationals `ℚ`, standing for the finite Python floats actually
    exercised; `float(new_weight)` on a numeric value always succeeds, so
    `change_weight` takes a `ℚ` directly and its `TypeError` branch (raised
    only for values that cannot be cast to float) is outside the input type.
  * Python exceptions are the `Err` type, carrying the message string.
  * `np.random.choice` is modelled by an oracle `pick : Nat → Nat` choosing an
    index into the faces for each draw, after the validation that numpy
    performs on the probability vector `p = weights / weights.sum()`:
    it rejects an empty population, a size mismatch, a `p` containing NaN
    (which is what `weights.sum() = 0` produces, since every entry of `p` is
    then `0/0 = NaN` or `±inf` and the Kahan sum of `p` is NaN), and a
    negative entry of `p`.
  * DataFrames are lists: the wide result table is a row-major
    `List (List α)` (row = roll number, column = die number), and the narrow
    (melted) table is a list of (roll number, die number, face) records.
    `pd.melt` stacks the value columns one after the other, so the records
    appear in column-major order.
-/
import Mathlib

deriving instance DecidableEq for Except

namespace MonteCarlo

set_option linter.unusedSectionVars false

/-- Python exception classes, with the message raised. -/
inductive Err where
  | typeError (msg : String)
  | valueError (msg : String)
  | indexError (msg : String)
deriving DecidableEq

/-- A Python value passed as a roll count: an actual `int`, or anything else
(the `isinstance(num_rolls, int)` guard in the source rejects the latter). -/
inductive PyCount where
  | int (n : ℤ)
  | nonInt
deriving DecidableEq

/-- The `Die` class: the faces array and the weight column of the private
DataFrame `_df` (indexed by face, in construction order). -/
structure Die (α : Type) where
  faces : List α
  weights : List ℚ
deriving DecidableEq

variable {α : Type} [LinearOrder α] [Inhabited α]

/-- Constructor `Die.__init__`: the uniqueness check `len(np.unique(faces)) != len(faces)`
(the number of distinct values versus the length), then every weight is
initialised to 1.0.  The `isinstance(faces, np.ndarray)` check is outside the
typed input. -/
def dieInit (faces : List α) : Except Err (Die α) :=
  if faces.dedup.length ≠ faces.length then
    .error (.valueError "Faces must be unique.")
  else
    .ok ⟨faces, faces.map fun _ => (1 : ℚ)⟩

/-- Method `Die.change_weight`: raises `IndexError` when the face is absent from the
index; otherwise `float(new_weight)` succeeds on a numeric value and
the assignment into the weight column of `_df` at index `face` overwrites the weight at every
index position equal to `face` (a single position for a constructor-built
die).  No sign or finiteness check is performed. -/
def Die.change_weight (d : Die α) (face : α) (new_weight : ℚ) :
    Except Err (Die α) :=
  if face ∉ d.faces then
    .error (.indexError "Face is not in the die.")
  else
    .ok ⟨d.faces,
      List.zipWith (fun f w => if f = face then new_weight else w)
        d.faces d.weights⟩

/-- Method `Die.roll`: the positive-integer guard from the source, then the
validation `np.random.choice` performs on the population and on
`p = weights / sum`, and finally `num_rolls` independent choices of a face,
driven by the oracle `pick`. -/
def Die.roll (d : Die α) (num_rolls : PyCount) (pick : Nat → Nat) :
    Except Err (List α) :=
  match num_rolls with
  | .nonInt => .error (.valueError "Number of rolls must be a positive integer.")
  | .int n =>
    if n < 1 then
      .error (.valueError "Number of rolls must be a positive integer.")
    else if hfz : d.faces.length = 0 then
      .error (.valueError "a cannot be empty unless no samples are taken")
    else if d.faces.length ≠ d.weights.length then
      .error (.valueError "a and p must have same size")
    else if d.weights.sum = 0 then
      .error (.valueError "probabilities contain NaN")
    else if d.weights.any fun w => decide (w / d.weights.sum < 0) then
      .error (.valueError "probabilities are not non-negative")
    else
      .ok ((List.range n.toNat).map fun i =>
        d.faces.get ⟨pick i % d.faces.length,
          Nat.mod_lt _ (Nat.pos_of_ne_zero hfz)⟩)

/-- Method `Die.show_die`: a copy of the (face, weight) table. -/
def Die.show_die (d : Die α) : List α × List ℚ := (d.faces, d.weights)

/-- An element of the Python list handed to `Game.__init__`: either a `Die`
instance or some other object (rejected by the `isinstance` check). -/
inductive PyObj (α : Type) where
  | die (d : Die α)
  | other
deriving DecidableEq

/-- Whether the object is a `Die` instance. -/
def PyObj.isDie : PyObj α → Bool
  | .die _ => true
  | .other => false

/-- Extract the `Die` behind the object, if any. -/
def PyObj.getDie : PyObj α → Option (Die α)
  | .die d => some d
  | .other => none

/-- The `Game` class: the dice list and the stored wide result table of the
most recent play (`None` before the first play).  The table is row-major:
row = roll number, column = die number. -/
structure Game (α : Type) where
  dice : List (Die α)
  results : Option (List (List α))
deriving DecidableEq

/-- Constructor `Game.__init__`: the `all(isinstance(d, Die) ...)` check (vacuously true
on an empty list), then `dice_list[0].faces` — an `IndexError` on an empty
list — and the loop comparing the faces of each remaining die with
`np.array_equal` (element-wise, order-sensitive array equality). -/
def gameInit (dice_list : List (PyObj α)) : Except Err (Game α) :=
  if ¬ dice_list.all PyObj.isDie then
    .error (.typeError "All elements in dice must be instances of the Die class.")
  else
    match dice_list with
    | [] => .error (.indexError "list index out of range")
    | x :: rest =>
      match x with
      | .other => .error (.typeError "All elements in dice must be instances of the Die class.")
      | .die d0 =>
        if rest.any fun y =>
            match y with
            | .die d => decide (d.faces ≠ d0.faces)
            | .other => false then
          .error (.valueError "All dice must have the same set of faces.")
        else
          .ok ⟨dice_list.filterMap PyObj.getDie, none⟩

/-- The loop body of `Game.play`: one `die.roll(num_rolls)` column per die,
die `j` driven by the oracle `picks j`; the first raised exception
propagates. -/
def rollCols (dice : List (Die α)) (c : PyCount) (picks : Nat → Nat → Nat) :
    Except Err (List (List α)) :=
  match dice with
  | [] => .ok []
  | d :: ds => do
    let col ← d.roll c (picks 0)
    let rest ← rollCols ds c fun j => picks (j + 1)
    pure (col :: rest)

/-- Assembling `pd.DataFrame(roll_data)` from equal-length columns: row `i`
of the wide table holds the `i`-th entry of every column. -/
def wideOfCols (cols : List (List α)) (n : Nat) : List (List α) :=
  (List.range n).map fun i => cols.map fun col => col.getD i default

/-- Method `Game.play`: the positive-integer guard, then one roll per die in list
order, and the wide table replaces any previously stored results. -/
def Game.play (g : Game α) (num_rolls : PyCount) (picks : Nat → Nat → Nat) :
    Except Err (Game α) :=
  match num_rolls with
  | .nonInt => .error (.valueError "Number of rolls must be a positive integer.")
  | .int n =>
    if n < 1 then
      .error (.valueError "Number of rolls must be a positive integer.")
    else do
      let cols ← rollCols g.dice num_rolls picks
      pure ⟨g.dice, some (wideOfCols cols n.toNat)⟩

/-- The wide table that the wide form of `Game.show` returns: a copy of `_results`, or an
empty DataFrame when no play has occurred. -/
def Game.showWide (g : Game α) : List (List α) := g.results.getD []

/-- Melting via `pd.melt`: the value columns (die numbers) are stacked
one after the other, so the records (roll number, die number, face) appear in
column-major order. -/
def narrowOf (rows : List (List α)) : List (Nat × Nat × α) :=
  (List.range (rows.headD []).length).flatMap fun j =>
    (List.range rows.length).map fun i => (i, j, (rows.getD i []).getD j default)

/-- The DataFrame `Game.show` returns: wide or narrow. -/
inductive ShowResult (α : Type) where
  | wideDF (t : List (List α))
  | narrowDF (t : List (Nat × Nat × α))
deriving DecidableEq

/-- Method `Game.show`: an empty DataFrame before any play, then the wide copy, the
melted narrow table, or a `ValueError` for any other form string. -/
def Game.showDF (g : Game α) (form : String) : Except Err (ShowResult α) :=
  match g.results with
  | none => .ok (.wideDF [])
  | some rows =>
    if form = "wide" then .ok (.wideDF rows)
    else if form = "narrow" then .ok (.narrowDF (narrowOf rows))
    else .error (.valueError "form must be either wide or narrow")

/-- Modelled from the spec words, for comparison with `narrowOf` (the melt
in the code): the same one-record-per-cell table but enumerated in row-major order,
as §4.2 of the spec describes the narrow form. -/
def narrowRowMajorSpec (rows : List (List α)) : List (Nat × Nat × α) :=
  (List.range rows.length).flatMap fun i =>
    (List.range (rows.headD []).length).map fun j =>
      (i, j, (rows.getD i []).getD j default)

/-- Regrouping a narrow record list back into a wide table: cell (i, j) is
the face of the first record carrying roll number `i` and die number `j`. -/
def rebuildWide (recs : List (Nat × Nat × α)) (nR nC : Nat) : List (List α) :=
  (List.range nR).map fun i => (List.range nC).map fun j =>
    ((recs.filter fun t => decide (t.1 = i ∧ t.2.1 = j)).headD
      (0, 0, default)).2.2

/-- The `Analyzer` class: the game and the snapshot, taken at construction, of the
wide-form results of the game. -/
structure Analyzer (α : Type) where
  game : Game α
  results : List (List α)
deriving DecidableEq

/-- Constructor `Analyzer.__init__`: stores the game and the wide-form copy of its
current results (the `isinstance(game, Game)` check is outside the typed
input). -/
def mkAnalyzer (g : Game α) : Analyzer α := ⟨g, g.showWide⟩

/-- The sum of `self.results.nunique(axis=1) == 1`: the number of rows with
exactly one distinct value. -/
def jackpotCount (rows : List (List α)) : Nat :=
  (rows.filter fun r => decide (r.dedup.length = 1)).length

/-- Method `Analyzer.jackpot`. -/
def Analyzer.jackpot (a : Analyzer α) : Nat := jackpotCount a.results

/-- The column set of the `face_counts_per_roll` table: the distinct values
observed anywhere in the table, in ascending order (pandas aligns the
per-row `value_counts` indices into one sorted column set). -/
def faceDomain (rows : List (List α)) : List α :=
  List.insertionSort (fun a b => a ≤ b) rows.flatten.dedup

/-- Method `Analyzer.face_counts_per_roll`: per row, the number of occurrences of
each observed face (0 when absent from that row). -/
def faceCountsPerRoll (rows : List (List α)) : List (List (α × Nat)) :=
  rows.map fun r => (faceDomain rows).map fun f => (f, r.count f)

/-- The canonical key `tuple(sorted(row))` of one row. -/
def sortedRow (r : List α) : List α := List.insertionSort (fun a b => a ≤ b) r

/-- Method `Analyzer.combo`: rows keyed by their sorted tuple, `value_counts()`
then `sort_index()` — the distinct keys ascending, each with its
multiplicity. -/
def comboTable (rows : List (List α)) : List (List α × Nat) :=
  (List.insertionSort (fun a b => a ≤ b) (rows.map sortedRow).dedup).map
    fun k => (k, (rows.map sortedRow).count k)

/-- Method `Analyzer.permutation`: rows keyed by their tuple in original column
order, `value_counts()` then `sort_index()`. -/
def permutationTable (rows : List (List α)) : List (List α × Nat) :=
  (List.insertionSort (fun a b => a ≤ b) rows.dedup).map
    fun k => (k, rows.count k)

/-- Method `Analyzer.combo` on the snapshot of the analyzer. -/
def Analyzer.combo (a : Analyzer α) : List (List α × Nat) := comboTable a.results

/-- Method `Analyzer.permutation` on the snapshot of the analyzer. -/
def Analyzer.permutation (a : Analyzer α) : List (List α × Nat) :=
  permutationTable a.results

/-- Method `Analyzer.face_counts_per_roll` on the snapshot of the analyzer. -/
def Analyzer.face_counts_per_roll (a : Analyzer α) : List (List (α × Nat)) :=
  faceCountsPerRoll a.results

/-- Unfolding of a successful roll: the count was a positive integer and the
output is one face per draw. -/
lemma roll_ok (d : Die α) (n : ℤ) (pick : Nat → Nat) (out : List α)
    (h : d.roll (.int n) pick = .ok out) :
    1 ≤ n ∧ out.length = n.toNat ∧ ∀ x ∈ out, x ∈ d.faces := by
  simp only [Die.roll] at h
  split at h
  · exact absurd h (by simp)
  split at h
  · exact absurd h (by simp)
  split at h
  · exact absurd h (by simp)
  split at h
  · exact absurd h (by simp)
  split at h
  · exact absurd h (by simp)
  rename_i hlt _ _ _ _
  simp only [Except.ok.injEq] at h
  subst h
  refine ⟨by omega, by simp, ?_⟩
  intro x hx
  simp only [List.mem_map] at hx
  obtain ⟨i, -, rfl⟩ := hx
  exact List.get_mem _ _ _

/-- A successful roll with a positive weight sum and non-negative weights:
characterisation of the output. -/
lemma roll_succeeds (d : Die α) (n : ℤ) (pick : Nat → Nat)
    (hn : 1 ≤ n) (hlen : d.faces.length = d.weights.length)
    (hnn : ∀ w ∈ d.weights, 0 ≤ w) (hex : ∃ w ∈ d.weights, 0 < w) :
    ∃ out, d.roll (.int n) pick = .ok out ∧
      (out.length : ℤ) = n ∧ ∀ x ∈ out, x ∈ d.faces := by
  obtain ⟨w0, hw0, hw0pos⟩ := hex
  have hwne : d.weights ≠ [] := List.ne_nil_of_mem hw0
  have hsum : 0 < d.weights.sum :=
    lt_of_lt_of_le hw0pos (List.single_le_sum hnn _ hw0)
  have hfz : ¬ d.faces.length = 0 := by
    rw [hlen]
    simpa [List.length_eq_zero] using hwne
  refine ⟨(List.range n.toNat).map fun i =>
      d.faces.get ⟨pick i % d.faces.length,
        Nat.mod_lt _ (Nat.pos_of_ne_zero hfz)⟩, ?_, ?_, ?_⟩
  · simp only [Die.roll]
    rw [if_neg (by omega), dif_neg hfz, if_neg (by omega),
      if_neg (ne_of_gt hsum), if_neg ?_]
    rw [Bool.not_eq_true, List.any_eq_false]
    intro w hw
    simpa using not_lt.mpr (div_nonneg (hnn w hw) (le_of_lt hsum))
  · simp [Int.toNat_of_nonneg (by omega : (0:ℤ) ≤ n)]
  · intro x hx
    simp only [List.mem_map] at hx
    obtain ⟨i, -, rfl⟩ := hx
    exact List.get_mem _ _ _

/-- A map through any function commutes with the bounded existential test. -/
lemma any_map₂ {β γ : Type} (f : β → γ) (l : List β) (p : γ → Bool) :
    (l.map f).any p = l.any fun b => p (f b) := by
  induction l with
  | nil => rfl
  | cons a l ih => simp [List.any_cons, ih]

/-- A map through any function commutes with the bounded universal test. -/
lemma all_map₂ {β γ : Type} (f : β → γ) (l : List β) (p : γ → Bool) :
    (l.map f).all p = l.all fun b => p (f b) := by
  induction l with
  | nil => rfl
  | cons a l ih => simp [List.all_cons, ih]

/-- Wrapping every die and extracting it back is the identity. -/
lemma filterMap_getDie_map_die (ds : List (Die α)) :
    (ds.map PyObj.die).filterMap PyObj.getDie = ds := by
  induction ds with
  | nil => rfl
  | cons d ds ih => simp [List.filterMap_cons, PyObj.getDie, ih]

/-- Unfolding of a successful batch roll: one column per die, each of the
requested length. -/
lemma rollCols_ok (dice : List (Die α)) (n : ℤ) (picks : Nat → Nat → Nat)
    (cols : List (List α)) (h : rollCols dice (.int n) picks = .ok cols) :
    cols.length = dice.length ∧ ∀ col ∈ cols, col.length = n.toNat := by
  induction dice generalizing picks cols with
  | nil =>
    simp only [rollCols, Except.ok.injEq] at h
    subst h
    simp
  | cons d ds ih =>
    simp only [rollCols] at h
    cases hr : d.roll (.int n) (picks 0) with
    | error e => rw [hr] at h; exact absurd h (by simp [Bind.bind, Except.bind])
    | ok col =>
      rw [hr] at h
      cases hrest : rollCols ds (.int n) (fun j => picks (j + 1)) with
      | error e =>
        rw [hrest] at h
        exact absurd h (by simp [Bind.bind, Except.bind])
      | ok rest =>
        rw [hrest] at h
        simp only [Bind.bind, Except.bind, Pure.pure, Except.pure,
          Except.ok.injEq] at h
        subst h
        obtain ⟨hl, hall⟩ := ih (fun j => picks (j + 1)) rest hrest
        obtain ⟨-, hcol, -⟩ := roll_ok d n (picks 0) col hr
        refine ⟨by simp [hl], ?_⟩
        intro c hc
        rcases List.mem_cons.mp hc with rfl | hc
        · exact hcol
        · exact hall c hc

/-- Unfolding of a successful play: the count was a positive integer, the
dice are untouched, and the stored wide table has one row per roll and one
cell per die in every row. -/
lemma play_ok (g g' : Game α) (c : PyCount) (picks : Nat → Nat → Nat)
    (h : g.play c picks = .ok g') :
    ∃ n : ℤ, c = .int n ∧ 1 ≤ n ∧ g'.dice = g.dice ∧
      ∃ rows, g'.results = some rows ∧ rows.length = n.toNat ∧
        ∀ r ∈ rows, r.length = g.dice.length := by
  cases c with
  | nonInt => exact absurd h (by simp [Game.play])
  | int n =>
    refine ⟨n, rfl, ?_⟩
    simp only [Game.play] at h
    split at h
    · exact absurd h (by simp)
    rename_i hlt
    cases hr : rollCols g.dice (.int n) picks with
    | error e =>
      rw [hr] at h
      exact absurd h (by simp [Bind.bind, Except.bind])
    | ok cols =>
      rw [hr] at h
      simp only [Bind.bind, Except.bind, Pure.pure, Except.pure,
        Except.ok.injEq] at h
      subst h
      obtain ⟨hclen, -⟩ := rollCols_ok _ _ _ _ hr
      refine ⟨by omega, rfl, wideOfCols cols n.toNat, rfl,
        by simp [wideOfCols], ?_⟩
      intro r hr2
      simp only [wideOfCols, List.mem_map] at hr2
      obtain ⟨i, -, rfl⟩ := hr2
      simp [hclen]

section ClaimC4

/-- Claim C4, counterexample: constructing a `Die` from an empty faces array
succeeds (with an empty weight table); the claimed `InvalidLabelSet` failure
on an empty label sequence does not occur. -/
theorem c4_counterexample : dieInit ([] : List ℤ) = .ok ⟨[], []⟩ := by decide

/-- Claim C4, amended: `Die.__init__` fails with `InvalidLabelSet`
(`ValueError`) exactly when the label sequence contains duplicates; every
duplicate-free sequence — the empty one included — is accepted, with every
weight initialised to 1.0. -/
theorem c4_amended (faces : List α) :
    dieInit faces =
      if faces.Nodup then .ok ⟨faces, faces.map fun _ => (1 : ℚ)⟩
      else .error (.valueError "Faces must be unique.") := by
  by_cases hn : faces.Nodup
  · rw [if_pos hn]
    have hd : faces.dedup = faces := List.dedup_eq_self.mpr hn
    simp [dieInit, hd]
  · rw [if_neg hn]
    have hne : faces.dedup.length ≠ faces.length := by
      intro he
      have : faces.dedup = faces :=
        List.Sublist.eq_of_length (List.dedup_sublist faces) he
      exact hn (this ▸ List.nodup_dedup faces)
    simp [dieInit, hne]

end ClaimC4

section ClaimC3

/-- Claim C3, counterexample: `change_weight` with the negative weight `-1`
on an existing face does not fail with `InvalidWeight`; it succeeds and
stores the negative weight (the source only casts the value to float). -/
theorem c3_counterexample :
    Die.change_weight (⟨[1, 2], [1, 1]⟩ : Die ℤ) 1 (-1) =
      .ok ⟨[1, 2], [-1, 1]⟩ := by decide

/-- Claim C3, amended: on an existing label, `change_weight` succeeds for
every float value of the weight — negative values included — and replaces
exactly the weights at the positions of that label, leaving every other
position unchanged.  It fails (with `IndexError`) only when the label is
absent. -/
theorem c3_amended (d : Die α) (face : α) (w : ℚ)
    (hmem : face ∈ d.faces) (hlen : d.weights.length = d.faces.length) :
    ∃ d', d.change_weight face w = .ok d' ∧ d'.faces = d.faces ∧
      d'.weights.length = d.weights.length ∧
      (∀ i, (hi : i < d.weights.length) →
        d.faces.getD i default ≠ face → d'.weights.getD i 0 = d.weights.getD i 0) ∧
      (∀ i, (hi : i < d.weights.length) →
        d.faces.getD i default = face → d'.weights.getD i 0 = w) := by
  have hzl : (List.zipWith (fun f w0 => if f = face then w else w0)
      d.faces d.weights).length = d.weights.length := by
    rw [List.length_zipWith, hlen, min_self]
  refine ⟨⟨d.faces, List.zipWith (fun f w0 => if f = face then w else w0)
      d.faces d.weights⟩, by simp [Die.change_weight, hmem], rfl, hzl, ?_, ?_⟩
  · intro i hi hne
    have hif : i < d.faces.length := hlen ▸ hi
    have h1 : (List.zipWith (fun f w0 => if f = face then w else w0)
        d.faces d.weights).getD i 0 =
          if d.faces[i] = face then w else d.weights[i] := by
      rw [List.getD_eq_getElem _ _ (hzl ▸ hi), List.getElem_zipWith]
    rw [List.getD_eq_getElem _ _ hif] at hne
    rw [h1, if_neg hne, List.getD_eq_getElem _ _ hi]
  · intro i hi heq
    have hif : i < d.faces.length := hlen ▸ hi
    have h1 : (List.zipWith (fun f w0 => if f = face then w else w0)
        d.faces d.weights).getD i 0 =
          if d.faces[i] = face then w else d.weights[i] := by
      rw [List.getD_eq_getElem _ _ (hzl ▸ hi), List.getElem_zipWith]
    rw [List.getD_eq_getElem _ _ hif] at heq
    rw [h1, if_pos heq]

/-- Claim C3, witness: a die with faces 1, 2 and weights 5, 7 accepts the
negative weight `-3` on face 1. -/
theorem c3_witness :
    ∃ d', Die.change_weight (⟨[1, 2], [5, 7]⟩ : Die ℤ) 1 (-3) = .ok d' ∧
      d'.faces = [1, 2] ∧ d'.weights.length = 2 ∧
      (∀ i, (hi : i < 2) →
        ([1, 2] : List ℤ).getD i default ≠ 1 → d'.weights.getD i 0 = ([5, 7] : List ℚ).getD i 0) ∧
      (∀ i, (hi : i < 2) →
        ([1, 2] : List ℤ).getD i default = 1 → d'.weights.getD i 0 = -3) :=
  c3_amended (⟨[1, 2], [5, 7]⟩ : Die ℤ) 1 (-3) (by decide) (by decide)

end ClaimC3

section ClaimC10

/-- Claim C10: constructing a `Game` from an empty dice list raises neither
`TypeMismatch` nor `IncompatibleLabelSets`: the element-type check passes
vacuously and the constructor fails indexing the first element
(`IndexError`). -/
theorem c10_empty_game :
    gameInit ([] : List (PyObj ℤ)) =
      .error (.indexError "list index out of range") := by decide

end ClaimC10

section ClaimC1

/-- Claim C1, counterexample: two dice with the same face set in different
orders ({1,2,3} as `[1,2,3]` and `[3,2,1]`) do NOT form a valid game; the
constructor compares the faces arrays element-wise with `np.array_equal` and
raises, although the claim says order-independent set equality suffices. -/
theorem c1_counterexample :
    dieInit ([1, 2, 3] : List ℤ) = .ok ⟨[1, 2, 3], [1, 1, 1]⟩ ∧
    dieInit ([3, 2, 1] : List ℤ) = .ok ⟨[3, 2, 1], [1, 1, 1]⟩ ∧
    gameInit [PyObj.die (⟨[1, 2, 3], [1, 1, 1]⟩ : Die ℤ),
        PyObj.die ⟨[3, 2, 1], [1, 1, 1]⟩] =
      .error (.valueError "All dice must have the same set of faces.") := by
  refine ⟨by decide, by decide, by decide⟩

/-- Claim C1, amended: constructing a `Game` from a non-empty list of `Die`
objects succeeds exactly when the faces array of every die equals the faces
array of the first die element-wise, in the same order; whenever any faces
array differs — in particular whenever the label sets differ as sets, but
also when equal sets are ordered differently — it fails with
`IncompatibleLabelSets` (`ValueError`). -/
theorem c1_amended (d0 : Die α) (ds : List (Die α)) :
    gameInit (PyObj.die d0 :: ds.map PyObj.die) =
      if ∀ d ∈ ds, d.faces = d0.faces then .ok ⟨d0 :: ds, none⟩
      else .error (.valueError "All dice must have the same set of faces.") := by
  have hall : (PyObj.die d0 :: ds.map PyObj.die).all PyObj.isDie = true := by
    rw [List.all_cons, all_map₂]
    simp [PyObj.isDie, List.all_eq_true]
  by_cases hfa : ∀ d ∈ ds, d.faces = d0.faces
  · rw [if_pos hfa]
    have hany : ((ds.map PyObj.die).any fun y =>
        match y with
        | .die d => decide (d.faces ≠ d0.faces)
        | .other => false) = false := by
      rw [any_map₂, List.any_eq_false]
      intro d hd
      simpa using hfa d hd
    simp only [gameInit, hall, not_true, if_false, hany, Bool.false_eq_true,
      List.filterMap_cons, PyObj.getDie, filterMap_getDie_map_die]
  · rw [if_neg hfa]
    push_neg at hfa
    obtain ⟨d, hd, hne⟩ := hfa
    have hany : ((ds.map PyObj.die).any fun y =>
        match y with
        | .die d => decide (d.faces ≠ d0.faces)
        | .other => false) = true := by
      rw [any_map₂, List.any_eq_true]
      exact ⟨d, hd, by simpa using hne⟩
    simp only [gameInit, hall, not_true, if_false, hany, if_true]

end ClaimC1

section ClaimC8

/-- Claim C8: a draw on a die whose weights sum to zero fails: every entry of
`p = weights / weights.sum()` is then `0/0 = NaN` or `±inf`, and
`np.random.choice` rejects the probability vector (the concrete realisation
of the `DegenerateDistribution` error). -/
theorem c8_degenerate (d : Die α) (n : ℤ) (pick : Nat → Nat)
    (hn : 1 ≤ n) (hfz : d.faces.length ≠ 0)
    (hlen : d.faces.length = d.weights.length) (hsum : d.weights.sum = 0) :
    d.roll (.int n) pick = .error (.valueError "probabilities contain NaN") := by
  simp only [Die.roll]
  rw [if_neg (by omega), dif_neg hfz, if_neg (by omega), if_pos hsum]

/-- Claim C8, witness: after setting every weight of a two-faced die to zero
through `change_weight`, the next draw fails rather than returning
outcomes. -/
theorem c8_witness :
    Die.change_weight (⟨[1, 2], [1, 1]⟩ : Die ℤ) 1 0 = .ok ⟨[1, 2], [0, 1]⟩ ∧
    Die.change_weight (⟨[1, 2], [0, 1]⟩ : Die ℤ) 2 0 = .ok ⟨[1, 2], [0, 0]⟩ ∧
    Die.roll (⟨[1, 2], [0, 0]⟩ : Die ℤ) (.int 1) (fun i => i) =
      .error (.valueError "probabilities contain NaN") :=
  ⟨by decide, by decide,
    c8_degenerate (⟨[1, 2], [0, 0]⟩ : Die ℤ) 1 (fun i => i)
      (by decide) (by decide) (by decide) (by simp)⟩

end ClaimC8

section ClaimC7

/-- Claim C7, counterexample: a constructed die whose weights were then set
to `[2, -1]` has a positive weight sum, yet a draw of one outcome does not
return a one-element sequence: numpy rejects the negative probability
entry.  The quantification of the claim over every constructed source with
positive weight sum therefore fails. -/
theorem c7_counterexample :
    dieInit ([1, 2] : List ℤ) = .ok ⟨[1, 2], [1, 1]⟩ ∧
    Die.change_weight (⟨[1, 2], [1, 1]⟩ : Die ℤ) 1 2 = .ok ⟨[1, 2], [2, 1]⟩ ∧
    Die.change_weight (⟨[1, 2], [2, 1]⟩ : Die ℤ) 2 (-1) = .ok ⟨[1, 2], [2, -1]⟩ ∧
    (0 : ℚ) < ([2, -1] : List ℚ).sum ∧
    Die.roll (⟨[1, 2], [2, -1]⟩ : Die ℤ) (.int 1) (fun i => i) =
      .error (.valueError "probabilities are not non-negative") := by
  refine ⟨by decide, by decide, by decide, by with_unfolding_all decide,
    by with_unfolding_all decide⟩

/-- Claim C7, amended: for every source whose weights are all non-negative
with at least one positive (hence a positive weight sum), `Draw(count)` with
an integer `count ≥ 1` returns exactly `count` labels, each a member of the
configured label set; for every integer `count < 1` and for every
non-integer count it fails with `InvalidCount` (`ValueError`). -/
theorem c7_amended (d : Die α) (pick : Nat → Nat)
    (hlen : d.faces.length = d.weights.length)
    (hnn : ∀ w ∈ d.weights, 0 ≤ w) (hex : ∃ w ∈ d.weights, 0 < w) :
    (∀ n : ℤ, 1 ≤ n → ∃ out, d.roll (.int n) pick = .ok out ∧
      (out.length : ℤ) = n ∧ ∀ x ∈ out, x ∈ d.faces) ∧
    (∀ n : ℤ, n < 1 → d.roll (.int n) pick =
      .error (.valueError "Number of rolls must be a positive integer.")) ∧
    d.roll .nonInt pick =
      .error (.valueError "Number of rolls must be a positive integer.") := by
  refine ⟨fun n hn => roll_succeeds d n pick hn hlen hnn hex, ?_, rfl⟩
  intro n hn
  simp only [Die.roll]
  rw [if_pos hn]

/-- Claim C7, witness: a fresh two-faced die (weights 1, 1) at draw counts
3, 0 and non-integer. -/
theorem c7_witness :
    (∀ n : ℤ, 1 ≤ n → ∃ out,
      Die.roll (⟨[1, 2], [1, 1]⟩ : Die ℤ) (.int n) (fun i => i) = .ok out ∧
      (out.length : ℤ) = n ∧ ∀ x ∈ out, x ∈ ([1, 2] : List ℤ)) ∧
    (∀ n : ℤ, n < 1 → Die.roll (⟨[1, 2], [1, 1]⟩ : Die ℤ) (.int n) (fun i => i) =
      .error (.valueError "Number of rolls must be a positive integer.")) ∧
    Die.roll (⟨[1, 2], [1, 1]⟩ : Die ℤ) .nonInt (fun i => i) =
      .error (.valueError "Number of rolls must be a positive integer.") :=
  c7_amended (⟨[1, 2], [1, 1]⟩ : Die ℤ) (fun i => i) (by decide)
    (by decide) (by decide)

end ClaimC7

section ClaimC6

/-- Claim C6: the jackpot statistic counts the rows of the snapshot whose
cells hold exactly one distinct label; on every played game it is at most
the number of rolls, and on a game with exactly one die it equals the number
of rolls. -/
theorem c6_jackpot (g g' : Game α) (c : PyCount) (picks : Nat → Nat → Nat)
    (h : g.play c picks = .ok g') :
    ∃ rows, g'.results = some rows ∧
      (mkAnalyzer g').jackpot = jackpotCount rows ∧
      jackpotCount rows ≤ rows.length ∧
      (∃ n : ℤ, c = .int n ∧ rows.length = n.toNat) ∧
      (g.dice.length = 1 → jackpotCount rows = rows.length) := by
  obtain ⟨n, rfl, hn, hdice, rows, hres, hlen, hrect⟩ := play_ok g g' _ picks h
  refine ⟨rows, hres, ?_, List.length_filter_le _ _, ⟨n, rfl, hlen⟩, ?_⟩
  · simp [mkAnalyzer, Analyzer.jackpot, Game.showWide, hres]
  · intro h1
    unfold jackpotCount
    rw [List.filter_eq_self.mpr ?_]
    intro r hrow
    obtain ⟨a, rfl⟩ := List.length_eq_one.mp (by rw [hrect r hrow, h1])
    simp

/-- Evaluation helper: a deterministic play of one two-faced die, rolled
twice. -/
lemma play_eval_one_die :
    Game.play (⟨[⟨[1, 2], [1, 1]⟩], none⟩ : Game ℤ) (.int 2) (fun _ i => i) =
      .ok ⟨[⟨[1, 2], [1, 1]⟩], some [[1], [2]]⟩ := by
  with_unfolding_all decide

/-- Claim C6, witness: the single-die game rolled twice has jackpot count
equal to both rolls. -/
theorem c6_witness :
    ∃ rows, (⟨[⟨[1, 2], [1, 1]⟩], some [[1], [2]]⟩ : Game ℤ).results = some rows ∧
      (mkAnalyzer (⟨[⟨[1, 2], [1, 1]⟩], some [[1], [2]]⟩ : Game ℤ)).jackpot =
        jackpotCount rows ∧
      jackpotCount rows ≤ rows.length ∧
      (∃ n : ℤ, PyCount.int 2 = .int n ∧ rows.length = n.toNat) ∧
      ((⟨[⟨[1, 2], [1, 1]⟩], none⟩ : Game ℤ).dice.length = 1 →
        jackpotCount rows = rows.length) :=
  c6_jackpot (⟨[⟨[1, 2], [1, 1]⟩], none⟩ : Game ℤ)
    (⟨[⟨[1, 2], [1, 1]⟩], some [[1], [2]]⟩ : Game ℤ) (.int 2) (fun _ i => i)
    play_eval_one_die

end ClaimC6

/-- Counting is independent of which of the two lawful boolean-equality
instances on rows is used. -/
lemma count_bridge (k : List α) (l : List (List α)) :
    List.count k l = @List.count (List α) instBEqOfDecidableEq k l := by
  induction l with
  | nil => rfl
  | cons x xs ih =>
    rw [List.count_cons, @List.count_cons _ instBEqOfDecidableEq, ih]
    congr 1
    by_cases hxk : x = k
    · rw [if_pos (by simp [hxk]), if_pos (by simp [hxk])]
    · rw [if_neg (by simp [hxk]), if_neg (by simp [hxk])]

/-- Summing the multiplicities over the sorted distinct keys of a list of
rows gives its length. -/
lemma sum_counts_sorted_dedup (l : List (List α)) :
    ((List.insertionSort (fun a b => a ≤ b) l.dedup).map fun k => l.count k).sum
      = l.length := by
  have hperm := (List.perm_insertionSort (fun a b => (a : List α) ≤ b) l.dedup).map
    fun k => l.count k
  rw [List.Perm.sum_eq hperm]
  rw [show (fun k => List.count k l) =
    (fun x => @List.count (List α) instBEqOfDecidableEq x l) from
    funext fun k => count_bridge k l]
  exact List.sum_map_count_dedup_eq_length l

/-- Summing the multiplicities over a filtered set of the sorted distinct
keys counts the rows satisfying the filter. -/
lemma sum_counts_sorted_dedup_filter (p : List α → Bool) (l : List (List α)) :
    ((((List.insertionSort (fun a b => a ≤ b) l.dedup).filter p)).map
        fun k => l.count k).sum = l.countP p := by
  have hperm := ((List.perm_insertionSort (fun a b => (a : List α) ≤ b)
    l.dedup).filter p).map fun k => l.count k
  rw [List.Perm.sum_eq hperm]
  rw [show (fun k => List.count k l) =
    (fun x => @List.count (List α) instBEqOfDecidableEq x l) from
    funext fun k => count_bridge k l]
  exact List.sum_map_count_dedup_filter_eq_countP p l

/-- Evaluation helper: a deterministic play of two identical coin-style dice,
rolled twice; the first die lands 0 then 1, the second 1 then 0. -/
lemma play_eval_two_dice :
    Game.play (⟨[⟨[0, 1], [1, 1]⟩, ⟨[0, 1], [1, 1]⟩], none⟩ : Game ℤ) (.int 2)
        (fun j i => if j = 0 then i else 1 - i) =
      .ok ⟨[⟨[0, 1], [1, 1]⟩, ⟨[0, 1], [1, 1]⟩], some [[0, 1], [1, 0]]⟩ := by
  with_unfolding_all decide

section ClaimC5

/-- Claim C5: on every played game, the combo counts sum to the number of
rolls, the permutation counts sum to the number of rolls, sorting any
permutation key lands on exactly one combo key (the combo keys are distinct),
and the counts of the permutation keys that sort to a given combo key sum to
the count of that combo key. -/
theorem c5_partition (g g' : Game α) (c : PyCount) (picks : Nat → Nat → Nat)
    (h : g.play c picks = .ok g') :
    ∃ (n : ℤ) (rows : List (List α)), c = .int n ∧ g'.results = some rows ∧
      rows.length = n.toNat ∧
      ((comboTable rows).map Prod.snd).sum = n.toNat ∧
      ((permutationTable rows).map Prod.snd).sum = n.toNat ∧
      ((comboTable rows).map Prod.fst).Nodup ∧
      (∀ pc ∈ permutationTable rows,
        sortedRow pc.1 ∈ (comboTable rows).map Prod.fst) ∧
      (∀ kc ∈ comboTable rows,
        (((permutationTable rows).filter fun pc =>
            decide (sortedRow pc.1 = kc.1)).map Prod.snd).sum = kc.2) := by
  obtain ⟨n, rfl, hn, hdice, rows, hres, hlen, -⟩ := play_ok g g' _ picks h
  have hkeys : (rows.map sortedRow).length = n.toNat := by
    rw [List.length_map, hlen]
  refine ⟨n, rows, rfl, hres, hlen, ?_, ?_, ?_, ?_, ?_⟩
  · rw [comboTable, List.map_map]
    rw [show (Prod.snd ∘ fun k => (k, (rows.map sortedRow).count k)) =
      fun k => (rows.map sortedRow).count k from rfl]
    rw [sum_counts_sorted_dedup]
    exact hkeys
  · rw [permutationTable, List.map_map]
    rw [show (Prod.snd ∘ fun k => (k, rows.count k)) =
      fun k => rows.count k from rfl]
    rw [sum_counts_sorted_dedup]
    exact hlen
  · rw [comboTable, List.map_map]
    rw [show (Prod.fst ∘ fun k => (k, (rows.map sortedRow).count k)) = id from rfl]
    rw [List.map_id]
    exact (List.perm_insertionSort _ _).nodup_iff.mpr (List.nodup_dedup _)
  · intro pc hpc
    rw [permutationTable] at hpc
    obtain ⟨p, hp, rfl⟩ := List.mem_map.mp hpc
    have hpmem : p ∈ rows := List.mem_dedup.mp ((List.mem_insertionSort _).mp hp)
    rw [comboTable, List.map_map]
    rw [show (Prod.fst ∘ fun k => (k, (rows.map sortedRow).count k)) = id from rfl]
    rw [List.map_id]
    exact (List.mem_insertionSort _).mpr
      (List.mem_dedup.mpr (List.mem_map_of_mem sortedRow hpmem))
  · intro kc hkc
    rw [comboTable] at hkc
    obtain ⟨k, hk, rfl⟩ := List.mem_map.mp hkc
    show (((permutationTable rows).filter fun pc =>
        decide (sortedRow pc.1 = k)).map Prod.snd).sum
      = (rows.map sortedRow).count k
    rw [permutationTable, List.filter_map, List.map_map]
    rw [show (Prod.snd ∘ fun p => (p, rows.count p)) = fun p => rows.count p from rfl]
    rw [show ((fun pc => decide (sortedRow pc.1 = k)) ∘ fun p => (p, rows.count p)) =
      fun p => decide (sortedRow p = k) from rfl]
    rw [sum_counts_sorted_dedup_filter]
    rw [List.count_eq_countP, List.countP_map]
    refine List.countP_congr fun r hr => ?_
    rw [Bool.eq_iff_iff]
    simp [Function.comp]

/-- Claim C5, witness: the two-dice deterministic play with wide table
rows 0,1 and 1,0. -/
theorem c5_witness :
    ∃ (n : ℤ) (rows : List (List ℤ)), (PyCount.int 2 : PyCount) = .int n ∧
      (⟨[⟨[0, 1], [1, 1]⟩, ⟨[0, 1], [1, 1]⟩], some [[0, 1], [1, 0]]⟩ :
        Game ℤ).results = some rows ∧
      rows.length = n.toNat ∧
      ((comboTable rows).map Prod.snd).sum = n.toNat ∧
      ((permutationTable rows).map Prod.snd).sum = n.toNat ∧
      ((comboTable rows).map Prod.fst).Nodup ∧
      (∀ pc ∈ permutationTable rows,
        sortedRow pc.1 ∈ (comboTable rows).map Prod.fst) ∧
      (∀ kc ∈ comboTable rows,
        (((permutationTable rows).filter fun pc =>
            decide (sortedRow pc.1 = kc.1)).map Prod.snd).sum = kc.2) :=
  c5_partition (⟨[⟨[0, 1], [1, 1]⟩, ⟨[0, 1], [1, 1]⟩], none⟩ : Game ℤ)
    (⟨[⟨[0, 1], [1, 1]⟩, ⟨[0, 1], [1, 1]⟩], some [[0, 1], [1, 0]]⟩ : Game ℤ)
    (.int 2) (fun j i => if j = 0 then i else 1 - i) play_eval_two_dice

end ClaimC5

/-- Filtering a range for one value below the bound leaves that value
alone. -/
lemma range_filter_eq (n i : Nat) (h : i < n) :
    (List.range n).filter (fun x => decide (x = i)) = [i] := by
  induction n with
  | zero => omega
  | succ n ih =>
    rw [List.range_succ, List.filter_append]
    by_cases hi : i < n
    · rw [ih hi]
      have h1 : List.filter (fun x => decide (x = i)) [n] = [] := by
        simp
        omega
      rw [h1, List.append_nil]
    · have hin : i = n := by omega
      subst hin
      have h0 : (List.range i).filter (fun x => decide (x = i)) = [] := by
        rw [List.filter_eq_nil_iff]
        intro x hx
        have := List.mem_range.mp hx
        simp
        omega
      rw [h0, List.nil_append]
      simp

/-- Filtering distributes over a flat map. -/
lemma filter_flatMap {β γ : Type} (l : List β) (f : β → List γ) (p : γ → Bool) :
    (l.flatMap f).filter p = l.flatMap fun x => (f x).filter p := by
  induction l with
  | nil => rfl
  | cons a l ih => simp [List.flatMap_cons, List.filter_append, ih]

/-- A flat map over a range whose function vanishes away from one index
collapses to that index. -/
lemma flatMap_range_single {γ : Type} (m j : Nat) (f : Nat → List γ) (hj : j < m)
    (hf : ∀ x, x ≠ j → f x = []) : (List.range m).flatMap f = f j := by
  induction m with
  | zero => omega
  | succ m ih =>
    rw [List.range_succ, List.flatMap_append]
    by_cases hjm : j < m
    · rw [ih hjm, List.flatMap_cons, List.flatMap_nil, hf m (by omega),
        List.append_nil, List.append_nil]
    · have : j = m := by omega
      subst this
      have h0 : (List.range j).flatMap f = [] := by
        rw [List.flatMap_eq_nil_iff]
        intro x hx
        exact hf x (by have := List.mem_range.mp hx; omega)
      rw [h0, List.flatMap_cons, List.flatMap_nil, List.nil_append,
        List.append_nil]

/-- The narrow table holds exactly one record per cell: filtering for a cell
position inside the table leaves the single record of that cell. -/
lemma narrow_filter (rows : List (List α)) (i j : Nat)
    (hi : i < rows.length) (hj : j < (rows.headD []).length) :
    (narrowOf rows).filter (fun t => decide (t.1 = i ∧ t.2.1 = j)) =
      [(i, j, (rows.getD i []).getD j default)] := by
  rw [narrowOf, filter_flatMap]
  rw [flatMap_range_single ((rows.headD []).length) j _ hj ?_]
  · rw [List.filter_map]
    have hAB : List.filter ((fun t => decide (t.1 = i ∧ t.2.1 = j)) ∘ fun i' =>
        ((i', j, (rows.getD i' []).getD j default) : Nat × Nat × α))
          (List.range rows.length) =
        List.filter (fun i' => decide (i' = i)) (List.range rows.length) :=
      List.filter_congr fun x hx => by simp [Function.comp]
    rw [hAB, range_filter_eq _ i hi]
    rfl
  · intro j' hne
    rw [List.filter_map]
    have h0 : List.filter ((fun t => decide (t.1 = i ∧ t.2.1 = j)) ∘ fun i' =>
        ((i', j', (rows.getD i' []).getD j' default) : Nat × Nat × α))
          (List.range rows.length) = [] := by
      rw [List.filter_eq_nil_iff]
      intro x hx
      simp [Function.comp, hne]
    rw [h0]
    rfl

/-- Regrouping the narrow records of a rectangular table by roll number and
die number reconstructs the table exactly. -/
lemma rebuild_narrowOf (rows : List (List α)) (nC : Nat)
    (hrect : ∀ r ∈ rows, r.length = nC) :
    rebuildWide (narrowOf rows) rows.length nC = rows := by
  cases rows with
  | nil => simp [rebuildWide]
  | cons r0 rs =>
    have hHD : ((r0 :: rs).headD []).length = nC :=
      hrect r0 (List.mem_cons_self r0 rs)
    apply List.ext_getElem
    · simp [rebuildWide]
    intro i h1 h2
    simp only [rebuildWide] at h1 ⊢
    rw [List.getElem_map, List.getElem_range]
    have hi : i < (r0 :: rs).length := by simpa using h2
    have hrowlen : (r0 :: rs)[i].length = nC :=
      hrect _ (List.getElem_mem h2)
    apply List.ext_getElem
    · simp [hrowlen]
    intro j hj1 hj2
    rw [List.getElem_map, List.getElem_range]
    have hjC : j < nC := by simpa using hj1
    rw [narrow_filter (r0 :: rs) i j hi (hHD ▸ hjC)]
    rw [List.headD_cons]
    show ((r0 :: rs).getD i []).getD j default = (r0 :: rs)[i][j]
    rw [List.getD_eq_getElem _ _ hi, List.getD_eq_getElem _ _ hj2]

/-- The narrow table has one record per cell. -/
lemma narrowOf_length (rows : List (List α)) :
    (narrowOf rows).length = (rows.headD []).length * rows.length := by
  rw [narrowOf, List.length_flatMap]
  rw [List.sum_eq_card_nsmul _ rows.length ?_]
  · simp [smul_eq_mul]
  · intro b hb
    obtain ⟨j, -, rfl⟩ := List.mem_map.mp hb
    simp [Function.comp]

section ClaimC2

/-- Claim C2, counterexample: on the two-dice deterministic play with wide
table rows 0,1 and 1,0 the narrow table lists its records in column-major
order (all of die 0 first), not in the row-major order the claim states:
already the second record is the second roll of die 0, not the first roll of
die 1. -/
theorem c2_counterexample :
    Game.play (⟨[⟨[0, 1], [1, 1]⟩, ⟨[0, 1], [1, 1]⟩], none⟩ : Game ℤ) (.int 2)
        (fun j i => if j = 0 then i else 1 - i) =
      .ok ⟨[⟨[0, 1], [1, 1]⟩, ⟨[0, 1], [1, 1]⟩], some [[0, 1], [1, 0]]⟩ ∧
    Game.showDF (⟨[⟨[0, 1], [1, 1]⟩, ⟨[0, 1], [1, 1]⟩],
        some [[0, 1], [1, 0]]⟩ : Game ℤ) "narrow" =
      .ok (.narrowDF [(0, 0, 0), (1, 0, 1), (0, 1, 1), (1, 1, 0)]) ∧
    narrowOf ([[0, 1], [1, 0]] : List (List ℤ)) ≠
      narrowRowMajorSpec ([[0, 1], [1, 0]] : List (List ℤ)) := by
  refine ⟨play_eval_two_dice, by decide, by decide⟩

/-- Claim C2, amended: on every played game the narrow form holds exactly one
record (roll number, die number, face) per cell of the wide table, listed in
column-major order (the melt stacks the die columns one after the other),
and regrouping the records by roll number and die number reconstructs the
wide table exactly — same cell values, same row and column ordering. -/
theorem c2_amended (g g' : Game α) (c : PyCount) (picks : Nat → Nat → Nat)
    (h : g.play c picks = .ok g') :
    ∃ rows, g'.results = some rows ∧
      g'.showDF "narrow" = .ok (.narrowDF (narrowOf rows)) ∧
      (narrowOf rows).length = g.dice.length * rows.length ∧
      rebuildWide (narrowOf rows) rows.length g.dice.length = rows := by
  obtain ⟨n, rfl, hn, hdice, rows, hres, hlen, hrect⟩ := play_ok g g' _ picks h
  have hHD : (rows.headD []).length = g.dice.length := by
    cases rows with
    | nil => simp at hlen; omega
    | cons r0 rs => exact hrect r0 (List.mem_cons_self r0 rs)
  refine ⟨rows, hres, ?_, ?_, rebuild_narrowOf rows g.dice.length hrect⟩
  · simp [Game.showDF, hres]
  · rw [narrowOf_length, hHD]

/-- Claim C2, witness: the deterministic two-dice play, narrowed and
rebuilt. -/
theorem c2_witness :
    ∃ rows, (⟨[⟨[0, 1], [1, 1]⟩, ⟨[0, 1], [1, 1]⟩],
        some [[0, 1], [1, 0]]⟩ : Game ℤ).results = some rows ∧
      (⟨[⟨[0, 1], [1, 1]⟩, ⟨[0, 1], [1, 1]⟩],
        some [[0, 1], [1, 0]]⟩ : Game ℤ).showDF "narrow" =
        .ok (.narrowDF (narrowOf rows)) ∧
      (narrowOf rows).length =
        (⟨[⟨[0, 1], [1, 1]⟩, ⟨[0, 1], [1, 1]⟩], none⟩ :
          Game ℤ).dice.length * rows.length ∧
      rebuildWide (narrowOf rows) rows.length
        (⟨[⟨[0, 1], [1, 1]⟩, ⟨[0, 1], [1, 1]⟩], none⟩ :
          Game ℤ).dice.length = rows :=
  c2_amended (⟨[⟨[0, 1], [1, 1]⟩, ⟨[0, 1], [1, 1]⟩], none⟩ : Game ℤ)
    (⟨[⟨[0, 1], [1, 1]⟩, ⟨[0, 1], [1, 1]⟩], some [[0, 1], [1, 0]]⟩ : Game ℤ)
    (.int 2) (fun j i => if j = 0 then i else 1 - i) play_eval_two_dice

end ClaimC2

section ClaimC9

/-- Claim C9: the analyzer snapshot is fixed at construction.  In the source,
`Analyzer.__init__` stores `game.show('wide')`, which is a `.copy()` of the
result table, and a later `play` rebinds `_results` to a fresh DataFrame
rather than mutating the old one — so the snapshot is a value, faithfully
modelled by value semantics here.  After a successful re-play (no error
raised), the analyzer constructed before it still holds the old wide table,
every one of the four statistics is a function of that stored snapshot
alone, and a freshly constructed analyzer sees the new table. -/
theorem c9_snapshot (g g' : Game α) (c : PyCount) (picks : Nat → Nat → Nat)
    (h : g.play c picks = .ok g') :
    (mkAnalyzer g).results = g.showWide ∧
    ((mkAnalyzer g).jackpot = jackpotCount g.showWide ∧
      (mkAnalyzer g).combo = comboTable g.showWide ∧
      (mkAnalyzer g).permutation = permutationTable g.showWide ∧
      (mkAnalyzer g).face_counts_per_roll = faceCountsPerRoll g.showWide) ∧
    (∀ a b : Analyzer α, a.results = b.results →
      a.jackpot = b.jackpot ∧ a.combo = b.combo ∧
      a.permutation = b.permutation ∧
      a.face_counts_per_roll = b.face_counts_per_roll) ∧
    (mkAnalyzer g').results = g'.showWide := by
  refine ⟨rfl, ⟨rfl, rfl, rfl, rfl⟩, ?_, rfl⟩
  intro a b hab
  simp [Analyzer.jackpot, Analyzer.combo, Analyzer.permutation,
    Analyzer.face_counts_per_roll, hab]

/-- Evaluation helper: re-playing a game that already holds a one-row result
table replaces the table with the new two-row one. -/
lemma play_eval_replay :
    Game.play (⟨[⟨[0, 1], [1, 1]⟩, ⟨[0, 1], [1, 1]⟩], some [[0, 0]]⟩ : Game ℤ)
        (.int 2) (fun j i => if j = 0 then i else 1 - i) =
      .ok ⟨[⟨[0, 1], [1, 1]⟩, ⟨[0, 1], [1, 1]⟩], some [[0, 1], [1, 0]]⟩ := by
  with_unfolding_all decide

/-- Claim C9, witness: an analyzer built from the game holding the one-row
table keeps that table and its statistics through a successful re-play. -/
theorem c9_witness :
    (mkAnalyzer (⟨[⟨[0, 1], [1, 1]⟩, ⟨[0, 1], [1, 1]⟩], some [[0, 0]]⟩ :
        Game ℤ)).results =
      (⟨[⟨[0, 1], [1, 1]⟩, ⟨[0, 1], [1, 1]⟩], some [[0, 0]]⟩ :
        Game ℤ).showWide ∧
    ((mkAnalyzer (⟨[⟨[0, 1], [1, 1]⟩, ⟨[0, 1], [1, 1]⟩], some [[0, 0]]⟩ :
        Game ℤ)).jackpot = jackpotCount
        (⟨[⟨[0, 1], [1, 1]⟩, ⟨[0, 1], [1, 1]⟩], some [[0, 0]]⟩ :
          Game ℤ).showWide ∧
      (mkAnalyzer (⟨[⟨[0, 1], [1, 1]⟩, ⟨[0, 1], [1, 1]⟩], some [[0, 0]]⟩ :
        Game ℤ)).combo = comboTable
        (⟨[⟨[0, 1], [1, 1]⟩, ⟨[0, 1], [1, 1]⟩], some [[0, 0]]⟩ :
          Game ℤ).showWide ∧
      (mkAnalyzer (⟨[⟨[0, 1], [1, 1]⟩, ⟨[0, 1], [1, 1]⟩], some [[0, 0]]⟩ :
        Game ℤ)).permutation = permutationTable
        (⟨[⟨[0, 1], [1, 1]⟩, ⟨[0, 1], [1, 1]⟩], some [[0, 0]]⟩ :
          Game ℤ).showWide ∧
      (mkAnalyzer (⟨[⟨[0, 1], [1, 1]⟩, ⟨[0, 1], [1, 1]⟩], some [[0, 0]]⟩ :
        Game ℤ)).face_counts_per_roll = faceCountsPerRoll
        (⟨[⟨[0, 1], [1, 1]⟩, ⟨[0, 1], [1, 1]⟩], some [[0, 0]]⟩ :
          Game ℤ).showWide) ∧
    (∀ a b : Analyzer ℤ, a.results = b.results →
      a.jackpot = b.jackpot ∧ a.combo = b.combo ∧
      a.permutation = b.permutation ∧
      a.face_counts_per_roll = b.face_counts_per_roll) ∧
    (mkAnalyzer (⟨[⟨[0, 1], [1, 1]⟩, ⟨[0, 1], [1, 1]⟩],
        some [[0, 1], [1, 0]]⟩ : Game ℤ)).results =
      (⟨[⟨[0, 1], [1, 1]⟩, ⟨[0, 1], [1, 1]⟩], some [[0, 1], [1, 0]]⟩ :
        Game ℤ).showWide :=
  c9_snapshot (⟨[⟨[0, 1], [1, 1]⟩, ⟨[0, 1], [1, 1]⟩], some [[0, 0]]⟩ : Game ℤ)
    (⟨[⟨[0, 1], [1, 1]⟩, ⟨[0, 1], [1, 1]⟩], some [[0, 1], [1, 0]]⟩ : Game ℤ)
    (.int 2) (fun j i => if j = 0 then i else 1 - i) play_eval_replay

end ClaimC9

end MonteCarlo
